import Mathlib

/-!
Verification development for the xangi agent-orchestration layer.

The definitions below are a shallow embedding of the TypeScript sources:
the per-backend runners (`codex-cli.ts`, `claude-code.ts`, `gemini.ts`),
the JSONL stream handling inside their `executeStream` methods, and the
per-channel `ProcessManager`.  Machine behaviour that JavaScript supplies
implicitly (promise settlement being first-wins, `setTimeout`/`close`
event interleavings) is made explicit as a small event-trace semantics.
-/

namespace Xangi

/-! ## JSON values

`JSON.parse` is modelled by a small total parser over the character list.
Numbers keep their source lexeme: no claim inspects a numeric value, only
presence/truthiness of fields, so the lexeme is all that is needed.
-/

inductive Json where
  | null
  | bool (b : Bool)
  | num (lit : String)
  | str (s : String)
  | arr (elems : List Json)
  | obj (fields : List (String × Json))

/-- JSON insignificant whitespace (the four characters `JSON.parse` skips). -/
def isJsonWs (c : Char) : Bool :=
  c = ' ' || c = '\n' || c = '\t' || c = '\r'

def skipWs : List Char → List Char
  | [] => []
  | c :: cs => if isJsonWs c then skipWs cs else c :: cs

/-- Decode one escape character after a backslash (the common JSON escapes). -/
def unescape (c : Char) : Option Char :=
  if c = '"' then some '"'
  else if c = '\\' then some '\\'
  else if c = '/' then some '/'
  else if c = 'n' then some '\n'
  else if c = 't' then some '\t'
  else if c = 'r' then some '\r'
  else if c = 'b' then some (Char.ofNat 8)
  else if c = 'f' then some (Char.ofNat 12)
  else none

/-- Parse the body of a JSON string after the opening quote; returns the
decoded characters and the rest of the input. -/
def parseStrBody : List Char → List Char → Option (List Char × List Char)
  | _, [] => none
  | acc, c :: cs =>
    if c = '"' then some (acc.reverse, cs)
    else if c = '\\' then
      match cs with
      | [] => none
      | e :: cs2 =>
        match unescape e with
        | some d => parseStrBody (d :: acc) cs2
        | none => none
    else parseStrBody (c :: acc) cs

/-- Characters that may appear in a JSON number lexeme. -/
def isNumChar (c : Char) : Bool :=
  c.isDigit || c = '-' || c = '+' || c = '.' || c = 'e' || c = 'E'

/-- Check that a lexeme is a well-formed JSON number: optional minus,
digits, optional fraction, optional exponent. -/
def isValidNum (lit : List Char) : Bool :=
  let afterSign := match lit with
    | '-' :: rest => rest
    | l => l
  let intPart := afterSign.takeWhile Char.isDigit
  let afterInt := afterSign.drop intPart.length
  if intPart.isEmpty then false
  else
    let afterFrac :=
      match afterInt with
      | '.' :: rest =>
        let fr := rest.takeWhile Char.isDigit
        if fr.isEmpty then none else some (rest.drop fr.length)
      | l => some l
    match afterFrac with
    | none => false
    | some rest =>
      match rest with
      | [] => true
      | e :: rest2 =>
        if e = 'e' || e = 'E' then
          let afterExpSign := match rest2 with
            | '+' :: r => r
            | '-' :: r => r
            | r => r
          let ds := afterExpSign.takeWhile Char.isDigit
          ¬ ds.isEmpty && (afterExpSign.drop ds.length).isEmpty
        else false

mutual

/-- Parse one JSON value; the fuel bounds recursion depth. -/
def parseVal : Nat → List Char → Option (Json × List Char)
  | 0, _ => none
  | fuel + 1, input =>
    match skipWs input with
    | [] => none
    | c :: rest =>
      if c = '"' then
        match parseStrBody [] rest with
        | some (chars, rem) => some (Json.str (String.mk chars), rem)
        | none => none
      else if c = Char.ofNat 123 then
        match skipWs rest with
        | c2 :: rest2 =>
          if c2 = Char.ofNat 125 then some (Json.obj [], rest2)
          else parseMembers fuel (c2 :: rest2) []
        | [] => none
      else if c = '[' then
        match skipWs rest with
        | c2 :: rest2 =>
          if c2 = ']' then some (Json.arr [], rest2)
          else parseElems fuel (c2 :: rest2) []
        | [] => none
      else if c = 't' then
        match rest with
        | 'r' :: 'u' :: 'e' :: rem => some (Json.bool true, rem)
        | _ => none
      else if c = 'f' then
        match rest with
        | 'a' :: 'l' :: 's' :: 'e' :: rem => some (Json.bool false, rem)
        | _ => none
      else if c = 'n' then
        match rest with
        | 'u' :: 'l' :: 'l' :: rem => some (Json.null, rem)
        | _ => none
      else if c.isDigit || c = '-' then
        let lit := (c :: rest).takeWhile isNumChar
        if isValidNum lit then
          some (Json.num (String.mk lit), (c :: rest).drop lit.length)
        else none
      else none

/-- Parse the members of an object (input starts at the first key). -/
def parseMembers : Nat → List Char → List (String × Json) →
    Option (Json × List Char)
  | 0, _, _ => none
  | fuel + 1, input, acc =>
    match skipWs input with
    | '"' :: rest =>
      match parseStrBody [] rest with
      | none => none
      | some (keyChars, afterKey) =>
        match skipWs afterKey with
        | ':' :: afterColon =>
          match parseVal fuel afterColon with
          | none => none
          | some (v, afterVal) =>
            let acc2 := acc ++ [(String.mk keyChars, v)]
            match skipWs afterVal with
            | ',' :: afterComma => parseMembers fuel afterComma acc2
            | c :: rest2 =>
              if c = Char.ofNat 125 then some (Json.obj acc2, rest2) else none
            | [] => none
        | _ => none
    | _ => none

/-- Parse the elements of an array (input starts at the first element). -/
def parseElems : Nat → List Char → List Json → Option (Json × List Char)
  | 0, _, _ => none
  | fuel + 1, input, acc =>
    match parseVal fuel input with
    | none => none
    | some (v, afterVal) =>
      let acc2 := acc ++ [v]
      match skipWs afterVal with
      | ',' :: afterComma => parseElems fuel afterComma acc2
      | ']' :: rest2 => some (Json.arr acc2, rest2)
      | _ => none

end

/-- Model of `JSON.parse`: `none` models a thrown `SyntaxError`. -/
def jsonParse (s : String) : Option Json :=
  match parseVal (2 * s.data.length + 4) s.data with
  | some (j, rest) => if (skipWs rest).isEmpty then some j else none
  | none => none

/-! ## JavaScript string primitives

Structurally recursive models of the string operations the sources use
(`split('\n')`, `trim()`, `startsWith`, `includes`, emptiness), so that
every concrete run evaluates inside the kernel.
-/

/-- Whitespace trimmed by `String.prototype.trim` (the ASCII part). -/
def isJsWsChar (c : Char) : Bool :=
  c = ' ' || c = '\t' || c = '\n' || c = '\r'
    || c = Char.ofNat 11 || c = Char.ofNat 12

def splitNlAux : List Char → List Char → List String
  | [], acc => [String.mk acc.reverse]
  | c :: cs, acc =>
    if c = '\n' then String.mk acc.reverse :: splitNlAux cs []
    else splitNlAux cs (c :: acc)

/-- `s.split('\n')`: the list of segments between newline characters (one
more segment than there are newlines). -/
def jsSplitNl (s : String) : List String := splitNlAux s.data []

/-- `s.trim()`. -/
def jsTrim (s : String) : String :=
  String.mk (((s.data.dropWhile isJsWsChar).reverse.dropWhile
    isJsWsChar).reverse)

/-- Emptiness of a string (falsiness of a string value). -/
def jsIsEmpty (s : String) : Bool := s.data.isEmpty

def prefixOf : List Char → List Char → Bool
  | [], _ => true
  | _ :: _, [] => false
  | p :: ps, c :: cs => p = c && prefixOf ps cs

/-- `s.startsWith(pre)`. -/
def jsStartsWith (s pre : String) : Bool := prefixOf pre.data s.data

def containsSub : List Char → List Char → Bool
  | [], needle => needle.isEmpty
  | h :: hs, needle => prefixOf needle (h :: hs) || containsSub hs needle

/-- `s.includes(pat)`. -/
def strIncludes (s pat : String) : Bool := containsSub s.data pat.data

def lastD : List String → String → String
  | [], d => d
  | [x], _ => x
  | _ :: y :: t, d => lastD (y :: t) d

def lastOpt : List String → Option String
  | [] => none
  | [x] => some x
  | _ :: y :: t => lastOpt (y :: t)

/-! ## Field access and JavaScript truthiness -/

/-- Property lookup on a JSON value (`undefined` modelled as `none`).
`JSON.parse` keeps the last duplicate key, hence the reversed search. -/
def Json.getField : Json → String → Option Json
  | .obj fields, k => (fields.reverse.find? (fun p => p.1 == k)).map (·.2)
  | _, _ => none

/-- JavaScript truthiness of a JSON value.  A number is falsy exactly when
its value is zero; for the lexemes the backends emit this is the test that
some mantissa digit is non-zero. -/
def Json.truthy : Json → Bool
  | .null => false
  | .bool b => b
  | .num lit =>
    ((lit.data.takeWhile (fun c => c ≠ 'e' && c ≠ 'E')).filter
      Char.isDigit).any (· ≠ '0')
  | .str s => ¬ s.isEmpty
  | .arr _ => true
  | .obj _ => true

/-- Truthiness of `json.field` (missing field is `undefined`, i.e. falsy). -/
def fieldTruthy (j : Json) (k : String) : Bool :=
  match j.getField k with
  | some v => v.truthy
  | none => false

/-- A field read as a string; the backend protocols carry these fields as
strings, so a non-string value is treated as absent. -/
def getStr (j : Json) (k : String) : Option String :=
  match j.getField k with
  | some (.str s) => some s
  | _ => none

/-- A field that the source both guards by truthiness and then uses as a
string: present exactly when it is a non-empty string. -/
def strTruthy (j : Json) (k : String) : Option String :=
  match getStr j k with
  | some s => if jsIsEmpty s then none else some s
  | none => none

/-- Strict string comparison `json.type === t`. -/
def typeIs (j : Json) (t : String) : Bool :=
  match j.getField "type" with
  | some (.str s) => s == t
  | _ => false

/-! ## ProcessManager (`src/process-manager.ts`)

Child processes are identified by a numeric id; `proc.killed` is the
process being a member of the state's `killedSet` (a `SIGTERM` has been
delivered to it at some point).
-/

structure PMState where
  table : List (String × Nat)
  killedSet : List Nat
  deriving DecidableEq, Repr

/-- `Map.get`: first match; `ProcessManager`'s map never holds duplicate
keys, so first match is the unique match. -/
def pmLookup : List (String × Nat) → String → Option Nat
  | [], _ => none
  | (k', p) :: rest, k => if k' == k then some p else pmLookup rest k

/-- `Map.delete` on the channel key. -/
def pmErase : List (String × Nat) → String → List (String × Nat)
  | [], _ => []
  | (k', p) :: rest, k =>
    if k' == k then pmErase rest k else (k', p) :: pmErase rest k

/-- `Map.set`: replace the entry for the key, else append. -/
def pmSet : List (String × Nat) → String → Nat → List (String × Nat)
  | [], k, p => [(k, p)]
  | (k', p') :: rest, k, p =>
    if k' == k then (k, p) :: rest else (k', p') :: pmSet rest k p

/-- `ProcessManager.stop`: if a process is registered and not yet killed,
send `SIGTERM` (record it killed), drop the entry, and report `true`. -/
def pmStop (s : PMState) (k : String) : PMState × Bool :=
  match pmLookup s.table k with
  | some p =>
    if s.killedSet.contains p then (s, false)
    else (⟨pmErase s.table k, p :: s.killedSet⟩, true)
  | none => (s, false)

/-- `ProcessManager.register`: stop any existing process for the key first,
then store the new one. -/
def pmRegister (s : PMState) (k : String) (p : Nat) : PMState :=
  let s1 := (pmStop s k).1
  ⟨pmSet s1.table k p, s1.killedSet⟩

/-- `ProcessManager.isRunning`. -/
def pmIsRunning (s : PMState) (k : String) : Bool :=
  match pmLookup s.table k with
  | some p => ¬ s.killedSet.contains p
  | none => false

/-- The `close`-listener installed by `register`: remove the entry only if
the stored handle is still the process that exited. -/
def pmOnClose (s : PMState) (k : String) (p : Nat) : PMState :=
  if pmLookup s.table k = some p then ⟨pmErase s.table k, s.killedSet⟩ else s

/-! ## Runner interface types (`agent-runner.ts`, `constants.ts`) -/

structure RunOptions where
  skipPermissions : Option Bool := none
  sessionId : Option String := none
  channelId : Option String := none
  deriving DecidableEq, Repr

structure RunResult where
  result : String
  sessionId : String
  deriving DecidableEq, Repr

def DEFAULT_TIMEOUT_MS : Nat := 300000

/-- Rendering of an exit code in a template literal; a process killed by a
signal closes with `code = null`, printed as `"null"`. -/
def codeStr : Option Int → String
  | some n => toString n
  | none => "null"

/-- What the spawned OS process does, as observed by the event handlers the
runner installs: it closes with an exit code and output, fails to spawn, or
outlives the wall-clock timer. -/
inductive ExecOutcome where
  | closed (code : Option Int) (stdout : String) (stderr : String)
  | spawnErr (msg : String)
  | timedOut
  deriving DecidableEq, Repr

/-! ## System prompt (`base-runner.ts`)

`buildSystemPrompt()` is the fixed `CHAT_SYSTEM_PROMPT_RESUME` constant
followed by the externally loaded command-reference document (empty string
when the file is absent); it is therefore never empty.
-/

def CHAT_SYSTEM_PROMPT_RESUME : String :=
  "あなたはチャットプラットフォーム（Discord/Slack）経由で会話しています。\n\n## セッション継続\nこのセッションは --resume オプションで継続されています。過去の会話履歴は保持されているので、直前の会話内容を覚えています。「再起動したから覚えていない」とは言わないでください。\n\n## セッション開始時\nAGENTS.md を読み、指示に従うこと（AGENTS.md 等の参照含む）。\nxangi専用コマンド（Discord操作・ファイル送信・スケジューラー・チャンネル一覧・タイムアウト対策）は以下を参照。"

/-- `buildSystemPrompt`, with the loaded `XANGI_COMMANDS.md` contribution as
a parameter (it is the empty string when the file is missing). -/
def buildSystemPrompt (xangiDoc : String) : String :=
  CHAT_SYSTEM_PROMPT_RESUME ++ xangiDoc

/-! ## CodexRunner (`codex-cli.ts`) -/

structure CodexRunner where
  model : Option String := none
  timeoutMs : Nat := DEFAULT_TIMEOUT_MS
  workdir : Option String := none
  skipPermissions : Bool := false
  systemPrompt : String
  deriving DecidableEq, Repr

/-- The `CodexRunner` constructor: `systemPrompt` is always
`buildSystemPrompt()`. -/
def mkCodexRunner (model : Option String) (timeoutMs : Option Nat)
    (workdir : Option String) (skipPermissions : Option Bool)
    (xangiDoc : String) : CodexRunner :=
  ⟨model, timeoutMs.getD DEFAULT_TIMEOUT_MS, workdir,
    skipPermissions.getD false, buildSystemPrompt xangiDoc⟩

/-- The prompt actually passed to the CLI: the caller's prompt prefixed by
the system-context preamble whenever the system prompt is non-empty. -/
def codexFullPrompt (r : CodexRunner) (prompt : String) : String :=
  if jsIsEmpty r.systemPrompt then prompt
  else "<system-context>\n" ++ r.systemPrompt ++ "\n</system-context>\n\n"
    ++ prompt

/-- `CodexRunner.buildArgs`. -/
def codexBuildArgs (r : CodexRunner) (prompt : String) (o : RunOptions) :
    List String :=
  ["exec", "--json"]
  ++ (if o.skipPermissions.getD r.skipPermissions then
        ["--dangerously-bypass-approvals-and-sandbox"]
      else ["--full-auto"])
  ++ ["--skip-git-repo-check"]
  ++ (match r.model with
      | some m => ["--model", m]
      | none => [])
  ++ (match r.workdir with
      | some w => ["--cd", w]
      | none => [])
  ++ (match o.sessionId with
      | some sid => ["resume", sid]
      | none => [])
  ++ [codexFullPrompt r prompt]

/-- `CodexRunner.extractSessionId`. -/
def codexExtractSessionId (j : Json) : Option String :=
  if typeIs j "thread.started" && (strTruthy j "thread_id").isSome then
    strTruthy j "thread_id"
  else
    match strTruthy j "thread_id" with
    | some t => some t
    | none => strTruthy j "session_id"

structure Extracted where
  text : String
  isComplete : Bool
  deriving DecidableEq, Repr

/-- The nested `item` object of a Codex event. -/
def itemOf (j : Json) : Option Json := j.getField "item"

/-- `CodexRunner.extractText`. -/
def codexExtractText (j : Json) : Option Extracted :=
  if typeIs j "item.completed"
      && (match itemOf j with
          | some it => typeIs it "agent_message"
          | none => false)
      && (match itemOf j with
          | some it => (strTruthy it "text").isSome
          | none => false) then
    (itemOf j).bind (fun it => (strTruthy it "text").map (⟨·, true⟩))
  else if typeIs j "message" && (strTruthy j "content").isSome then
    (strTruthy j "content").map (⟨·, true⟩)
  else if (strTruthy j "result").isSome then
    (strTruthy j "result").map (⟨·, true⟩)
  else none

/-- The `messageParts` accumulated by `CodexRunner.extractResult`: every
line of the output that yields a complete text extraction, in order. -/
def codexTextParts (output : String) : List String :=
  (jsSplitNl (jsTrim output)).filterMap fun line =>
    if jsIsEmpty (jsTrim line) then none
    else
      match jsonParse line with
      | none => none
      | some j =>
        match codexExtractText j with
        | some e => if e.isComplete then some e.text else none
        | none => none

/-- `CodexRunner.extractResult`: the last extracted part, or the raw output
verbatim when no line yielded one. -/
def codexExtractResult (output : String) : String :=
  lastD (codexTextParts output) output

/-- The agent-message completion texts in an output, in order (used to
state how many `item.completed`/`agent_message` events an output holds). -/
def codexAgentMessageTexts (output : String) : List String :=
  (jsSplitNl (jsTrim output)).filterMap fun line =>
    if jsIsEmpty (jsTrim line) then none
    else
      match jsonParse line with
      | none => none
      | some j =>
        if typeIs j "item.completed" then
          match itemOf j with
          | some it =>
            if typeIs it "agent_message" then strTruthy it "text" else none
          | none => none
        else none

/-- `CodexRunner.execute`, given the spawned process's observed behaviour:
rejection messages follow the source templates; on exit 0 the whole stdout
resolves together with the last session id seen on a decoded line (the
stdout is modelled as delivered in one chunk, so lines never straddle a
chunk boundary here; the incremental decoder is modelled separately for
`executeStream`). -/
def codexExecute (r : CodexRunner) (out : ExecOutcome) :
    Except String (String × String) :=
  match out with
  | .closed code stdout stderr =>
    if code = some 0 then
      let sid := lastD ((jsSplitNl stdout).filterMap fun line =>
        if jsIsEmpty (jsTrim line) then none
        else (jsonParse line).bind codexExtractSessionId) ""
      .ok (stdout, sid)
    else .error ("Codex CLI exited with code " ++ codeStr code ++ ": "
      ++ stderr)
  | .spawnErr m => .error ("Failed to spawn Codex CLI: " ++ m)
  | .timedOut => .error ("Codex CLI timed out after " ++ toString r.timeoutMs
      ++ "ms")

/-- `CodexRunner.run`: build argv, execute, extract the final text.  The
`exec` oracle maps the built argv to the process's behaviour. -/
def codexRun (r : CodexRunner) (exec : List String → ExecOutcome)
    (prompt : String) (o : RunOptions) : Except String RunResult :=
  let args := codexBuildArgs r prompt o
  match codexExecute r (exec args) with
  | .error e => .error e
  | .ok (stdout, sessionId) => .ok ⟨codexExtractResult stdout, sessionId⟩

/-! ## mergeTexts -/

/-- Modelled from the spec: `mergeTexts` is imported by `claude-code.ts`
from `agent-runner.ts`, but its definition is not among the provided
sources.  Per the spec's additive-merge rule: with empty accumulated text
adopt the result text outright; when the result text does not already
contain the accumulated text as a prefix, concatenate (accumulated text
stays, result text appended); otherwise the result text already subsumes
the accumulated text and is used as is. -/
def mergeTexts (accumulated result : String) : String :=
  if jsIsEmpty accumulated then result
  else if jsStartsWith result accumulated then result
  else accumulated ++ result

/-! ## ClaudeCodeRunner (`claude-code.ts`) -/

structure ClaudeCodeRunner where
  model : Option String := none
  timeoutMs : Nat := DEFAULT_TIMEOUT_MS
  workdir : Option String := none
  skipPermissions : Bool := false
  systemPrompt : String
  deriving DecidableEq, Repr

/-- The `ClaudeCodeRunner` constructor: `systemPrompt` is always
`buildSystemPrompt()`. -/
def mkClaudeCodeRunner (model : Option String) (timeoutMs : Option Nat)
    (workdir : Option String) (skipPermissions : Option Bool)
    (xangiDoc : String) : ClaudeCodeRunner :=
  ⟨model, timeoutMs.getD DEFAULT_TIMEOUT_MS, workdir,
    skipPermissions.getD false, buildSystemPrompt xangiDoc⟩

/-- The argv built inline by `ClaudeCodeRunner.run`. -/
def claudeRunArgs (r : ClaudeCodeRunner) (prompt : String) (o : RunOptions) :
    List String :=
  ["-p", "--output-format", "json"]
  ++ (if o.skipPermissions.getD r.skipPermissions then
        ["--dangerously-skip-permissions"]
      else [])
  ++ (match o.sessionId with
      | some sid => ["--resume", sid]
      | none => [])
  ++ (match r.model with
      | some m => ["--model", m]
      | none => [])
  ++ ["--append-system-prompt", r.systemPrompt, prompt]

/-- The argv built inline by `ClaudeCodeRunner.runStream`. -/
def claudeStreamArgs (r : ClaudeCodeRunner) (prompt : String)
    (o : RunOptions) : List String :=
  ["-p", "--output-format", "stream-json", "--verbose"]
  ++ (if o.skipPermissions.getD r.skipPermissions then
        ["--dangerously-skip-permissions"]
      else [])
  ++ (match o.sessionId with
      | some sid => ["--resume", sid]
      | none => [])
  ++ (match r.model with
      | some m => ["--model", m]
      | none => [])
  ++ ["--append-system-prompt", r.systemPrompt, prompt]

structure ClaudeResponse where
  is_error : Bool
  result : String
  session_id : String
  deriving DecidableEq, Repr

/-- `ClaudeCodeRunner.parseResponse`: `JSON.parse` of the trimmed output; a
parse failure or a response with `is_error` set makes the run fail. -/
def claudeParseResponse (output : String) : Except String ClaudeResponse :=
  match jsonParse (jsTrim output) with
  | none => .error ("Failed to parse Claude Code CLI response: " ++ output)
  | some j =>
    let resp : ClaudeResponse :=
      ⟨fieldTruthy j "is_error", (getStr j "result").getD "",
        (getStr j "session_id").getD ""⟩
    if resp.is_error then
      .error ("Claude Code CLI returned error: " ++ resp.result)
    else .ok resp

/-- `ClaudeCodeRunner.execute`. -/
def claudeExecute (r : ClaudeCodeRunner) (out : ExecOutcome) :
    Except String String :=
  match out with
  | .closed code stdout stderr =>
    if code = some 0 then .ok stdout
    else .error ("Claude Code CLI exited with code " ++ codeStr code ++ ": "
      ++ stderr)
  | .spawnErr m => .error ("Failed to spawn Claude Code CLI: " ++ m)
  | .timedOut => .error ("Claude Code CLI timed out after "
      ++ toString r.timeoutMs ++ "ms")

/-- `ClaudeCodeRunner.run`: a single attempt — any error from the process
or the response parser propagates to the caller unchanged. -/
def claudeRun (r : ClaudeCodeRunner) (exec : List String → ExecOutcome)
    (prompt : String) (o : RunOptions) : Except String RunResult :=
  let args := claudeRunArgs r prompt o
  match claudeExecute r (exec args) with
  | .error e => .error e
  | .ok out =>
    match claudeParseResponse out with
    | .error e => .error e
    | .ok resp => .ok ⟨resp.result, resp.session_id⟩

/-! ## GeminiRunner (`gemini.ts`) -/

structure GeminiRunner where
  model : Option String := none
  timeoutMs : Nat := DEFAULT_TIMEOUT_MS
  workdir : Option String := none
  skipPermissions : Bool := false
  deriving DecidableEq, Repr

/-- `GeminiRunner.buildBaseArgs`. -/
def geminiBuildBaseArgs (r : GeminiRunner) (o : RunOptions) : List String :=
  (if o.skipPermissions.getD r.skipPermissions then ["--yolo"] else [])
  ++ (match r.model with
      | some m => ["--model", m]
      | none => [])
  ++ (match o.sessionId with
      | some sid => ["--resume", sid]
      | none => [])

/-- The full argv of a non-streaming Gemini run. -/
def geminiRunArgs (r : GeminiRunner) (prompt : String) (o : RunOptions) :
    List String :=
  geminiBuildBaseArgs r o ++ ["--prompt", prompt, "--output-format", "json"]

structure GeminiResponse where
  session_id : String
  response : String
  deriving DecidableEq, Repr

/-- `GeminiRunner.parseJsonResponse`. -/
def geminiParseJson (output : String) : Except String GeminiResponse :=
  match jsonParse (jsTrim output) with
  | none => .error ("Failed to parse Gemini CLI response: " ++ output)
  | some j => .ok ⟨(getStr j "session_id").getD "", (getStr j "response").getD ""⟩

/-- `GeminiRunner.execute`: on exit 0 the stdout resolves together with the
session id read from it (empty when the stdout does not parse). -/
def geminiExecute (r : GeminiRunner) (out : ExecOutcome) :
    Except String (String × String) :=
  match out with
  | .closed code stdout stderr =>
    if code = some 0 then
      let sid := match jsonParse (jsTrim stdout) with
        | some j => (getStr j "session_id").getD ""
        | none => ""
      .ok (stdout, sid)
    else .error ("Gemini CLI exited with code " ++ codeStr code ++ ": "
      ++ stderr)
  | .spawnErr m => .error ("Failed to spawn Gemini CLI: " ++ m)
  | .timedOut => .error ("Gemini CLI timed out after " ++ toString r.timeoutMs
      ++ "ms")

/-- One attempt of `GeminiRunner.run` (the body of its `try` block):
execute, parse, and combine `sessionId || response.session_id`. -/
def geminiAttempt (r : GeminiRunner) (exec : List String → ExecOutcome)
    (prompt : String) (o : RunOptions) : Except String RunResult :=
  let args := geminiRunArgs r prompt o
  match geminiExecute r (exec args) with
  | .error e => .error e
  | .ok (stdout, sid) =>
    match geminiParseJson stdout with
    | .error e => .error e
    | .ok resp =>
      .ok ⟨resp.response, if jsIsEmpty sid then resp.session_id else sid⟩

/-- `GeminiRunner.run`: on an error whose message contains
`"exited with code"`, and only when a session id was supplied, retry once
with the session id omitted; the retry's outcome (success or error) is
final. -/
def geminiRun (r : GeminiRunner) (exec : List String → ExecOutcome)
    (prompt : String) (o : RunOptions) : Except String RunResult :=
  match geminiAttempt r exec prompt o with
  | .ok res => .ok res
  | .error e =>
    if o.sessionId.isSome && strIncludes e "exited with code" then
      geminiAttempt r exec prompt { o with sessionId := none }
    else .error e

/-! ## Streaming semantics (`executeStream`)

The `executeStream` bodies install handlers for `stdout` data chunks, the
timeout timer, and the process `close`/`error` notifications.  They are
modelled as a state machine consuming the trace of events the event loop
delivers.  A promise settles only once (first wins), but the handlers keep
running and keep invoking callbacks — nothing in the source guards them.
-/

/-- One callback invocation observed by the caller. -/
inductive Cb where
  | text (chunk full : String)
  | complete (r : RunResult)
  | error (msg : String)
  deriving DecidableEq, Repr

/-- Events delivered to the handlers of one spawned process. -/
inductive PEvent where
  | data (chunk : String)
  | timeoutFire
  | close (code : Option Int)
  | errEvt (msg : String)
  deriving DecidableEq, Repr

structure StreamState where
  fullText : String := ""
  sessionId : String := ""
  buffer : String := ""
  timeoutArmed : Bool := true
  settled : Option (Except String RunResult) := none
  log : List Cb := []
  deriving Repr

def initialStream : StreamState := {}

/-- Record a callback invocation (the source never guards these). -/
def emit (s : StreamState) (c : Cb) : StreamState :=
  { s with log := s.log ++ [c] }

/-- Settle the promise: only the first `resolve`/`reject` takes effect. -/
def settle (s : StreamState) (r : Except String RunResult) : StreamState :=
  match s.settled with
  | some _ => s
  | none => { s with settled := some r }

/-- Split a buffer plus chunk into complete lines and the retained final
fragment (`buffer.split('\n')` followed by `buffer = lines.pop() || ''`). -/
def splitChunk (buffer chunk : String) : List String × String :=
  let parts := jsSplitNl (buffer ++ chunk)
  (parts.dropLast, lastD parts "")

/-- The `content` blocks of a print-style `assistant` event (iteration only
happens when the field holds an array). -/
def msgContentBlocks (j : Json) : List Json :=
  match j.getField "message" with
  | some m =>
    match m.getField "content" with
    | some (.arr blocks) => blocks
    | _ => []
  | none => []

/-- Truthiness of `json.message?.content` (guards entering the block loop). -/
def msgContentTruthy (j : Json) : Bool :=
  match j.getField "message" with
  | some m => fieldTruthy m "content"
  | none => false

/-- The per-block body of the `assistant` branch: append `block.text` to
the accumulated text and fire `onText` when the block is a text block. -/
def claudeTextBlockStep (withCallbacks : Bool) (s : StreamState) (b : Json) :
    StreamState :=
  if typeIs b "text" then
    let t := (getStr b "text").getD ""
    let s := { s with fullText := s.fullText ++ t }
    if withCallbacks then emit s (.text t s.fullText) else s
  else s

/-- Process one decoded line of a print-style stream inside the `data`
handler; the returned flag is false when the handler `return`ed early (the
backend-reported-error branch), which abandons the remaining lines of the
current chunk. -/
def claudeProcessLine (s : StreamState) (line : String) :
    StreamState × Bool :=
  if jsIsEmpty (jsTrim line) then (s, true)
  else
    match jsonParse line with
    | none => (s, true)
    | some j =>
      if typeIs j "assistant" && msgContentTruthy j then
        ((msgContentBlocks j).foldl (claudeTextBlockStep true) s, true)
      else if typeIs j "result" then
        let s := { s with sessionId := (getStr j "session_id").getD "" }
        if fieldTruthy j "is_error" then
          let msg := (getStr j "result").getD ""
          (settle (emit s (.error msg)) (.error msg), false)
        else
          match strTruthy j "result" with
          | some res =>
            ({ s with fullText := mergeTexts s.fullText res }, true)
          | none => (s, true)
      else (s, true)

def claudeProcessLines (s : StreamState) : List String → StreamState
  | [] => s
  | line :: rest =>
    let (s2, go) := claudeProcessLine s line
    if go then claudeProcessLines s2 rest else s2

/-- The `data` handler of `ClaudeCodeRunner.executeStream`. -/
def claudeOnData (s : StreamState) (chunk : String) : StreamState :=
  let (lines, newBuffer) := splitChunk s.buffer chunk
  claudeProcessLines { s with buffer := newBuffer } lines

/-- The exit-time flush of the retained fragment in the `close` handler:
note it handles `result` without consulting `is_error`, and fires no
`onText` callbacks. -/
def claudeFlushBuffer (s : StreamState) : StreamState :=
  if jsIsEmpty (jsTrim s.buffer) then s
  else
    match jsonParse s.buffer with
    | none => s
    | some j =>
      if typeIs j "assistant" && msgContentTruthy j then
        (msgContentBlocks j).foldl (claudeTextBlockStep false) s
      else if typeIs j "result" then
        let s := { s with sessionId := (getStr j "session_id").getD "" }
        match strTruthy j "result" with
        | some res => { s with fullText := mergeTexts s.fullText res }
        | none => s
      else s

/-- The `close` handler of `ClaudeCodeRunner.executeStream`. -/
def claudeOnClose (s : StreamState) (code : Option Int) : StreamState :=
  let s := { s with timeoutArmed := false }
  let s := claudeFlushBuffer s
  if code = some 0 then
    let r : RunResult := ⟨s.fullText, s.sessionId⟩
    settle (emit s (.complete r)) (.ok r)
  else
    let msg := "Claude Code CLI exited with code " ++ codeStr code
    settle (emit s (.error msg)) (.error msg)

/-- The timeout timer of `ClaudeCodeRunner.executeStream` (fires only while
armed; `clearTimeout` on close disarms it). -/
def claudeOnTimeout (timeoutMs : Nat) (s : StreamState) : StreamState :=
  if s.timeoutArmed then
    let s := { s with timeoutArmed := false }
    let msg := "Claude Code CLI timed out after " ++ toString timeoutMs
      ++ "ms"
    settle (emit s (.error msg)) (.error msg)
  else s

/-- The `error` (spawn failure) handler of
`ClaudeCodeRunner.executeStream`. -/
def claudeOnProcError (s : StreamState) (m : String) : StreamState :=
  let s := { s with timeoutArmed := false }
  let msg := "Failed to spawn Claude Code CLI: " ++ m
  settle (emit s (.error msg)) (.error msg)

def claudeStep (timeoutMs : Nat) (s : StreamState) : PEvent → StreamState
  | .data chunk => claudeOnData s chunk
  | .timeoutFire => claudeOnTimeout timeoutMs s
  | .close code => claudeOnClose s code
  | .errEvt m => claudeOnProcError s m

/-- Run `ClaudeCodeRunner.executeStream` against a trace of delivered
events. -/
def claudeStreamRun (timeoutMs : Nat) (events : List PEvent) : StreamState :=
  events.foldl (claudeStep timeoutMs) initialStream

/-- Count of terminal callbacks (`onComplete` or `onError`) in a log. -/
def terminalCbCount (log : List Cb) : Nat :=
  (log.filter fun c =>
    match c with
    | .text _ _ => false
    | .complete _ => true
    | .error _ => true).length

/-! ### Codex stream decoding (`CodexRunner.executeStream`)

The line decoder of the Codex `data` handler, and its exit-time flush, as
pure functions of the chunk sequence.
-/

/-- One `data` event of the Codex stream decoder: append the chunk, split
on newlines, retain the final fragment. -/
def codexFeed (st : List String × String) (chunk : String) :
    List String × String :=
  let (emitted, buffer) := st
  let (lines, newBuffer) := splitChunk buffer chunk
  (emitted ++ lines, newBuffer)

/-- All complete lines emitted over a chunk sequence, with the fragment
retained at process exit. -/
def codexDecodeChunks (chunks : List String) : List String × String :=
  chunks.foldl codexFeed ([], "")

/-- The decoded objects handed to the interpreter during the run: one per
complete line that is non-blank and parses (blank and malformed lines are
dropped silently). -/
def codexEmittedObjects (chunks : List String) : List Json :=
  ((codexDecodeChunks chunks).1).filterMap fun line =>
    if jsIsEmpty (jsTrim line) then none else jsonParse line

/-- The `close`-handler flush: the retained fragment is processed exactly
when it is non-blank and parses as a complete JSON value. -/
def codexFlushObject (chunks : List String) : Option Json :=
  let buffer := (codexDecodeChunks chunks).2
  if jsIsEmpty (jsTrim buffer) then none else jsonParse buffer

/-- Every object the decoder delivers across the whole run, in order,
including the exit-time flush. -/
def codexProcessedObjects (chunks : List String) : List Json :=
  codexEmittedObjects chunks ++ (codexFlushObject chunks).toList

/-- Process one decoded line of the Codex stream `data` handler. -/
def codexProcessLine (s : StreamState) (line : String) : StreamState :=
  if jsIsEmpty (jsTrim line) then s
  else
    match jsonParse line with
    | none => s
    | some j =>
      let s := match codexExtractSessionId j with
        | some sid => { s with sessionId := sid }
        | none => s
      match codexExtractText j with
      | some e =>
        let s := { s with fullText := e.text }
        emit s (.text e.text s.fullText)
      | none => s

/-- The `data` handler of `CodexRunner.executeStream`. -/
def codexOnData (s : StreamState) (chunk : String) : StreamState :=
  let (lines, newBuffer) := splitChunk s.buffer chunk
  lines.foldl codexProcessLine { s with buffer := newBuffer }

/-- The `close` handler of `CodexRunner.executeStream` (flush the retained
fragment, then resolve or reject on the exit code). -/
def codexOnClose (s : StreamState) (code : Option Int) : StreamState :=
  let s := { s with timeoutArmed := false }
  let s :=
    if jsIsEmpty (jsTrim s.buffer) then s
    else
      match jsonParse s.buffer with
      | none => s
      | some j =>
        let s := match codexExtractSessionId j with
          | some sid => { s with sessionId := sid }
          | none => s
        match codexExtractText j with
        | some e => { s with fullText := e.text }
        | none => s
  if code = some 0 then
    let r : RunResult := ⟨s.fullText, s.sessionId⟩
    settle (emit s (.complete r)) (.ok r)
  else
    let msg := "Codex CLI exited with code " ++ codeStr code
    settle (emit s (.error msg)) (.error msg)

/-- The timeout timer of `CodexRunner.executeStream`. -/
def codexOnTimeout (timeoutMs : Nat) (s : StreamState) : StreamState :=
  if s.timeoutArmed then
    let s := { s with timeoutArmed := false }
    let msg := "Codex CLI timed out after " ++ toString timeoutMs ++ "ms"
    settle (emit s (.error msg)) (.error msg)
  else s

def codexStep (timeoutMs : Nat) (s : StreamState) : PEvent → StreamState
  | .data chunk => codexOnData s chunk
  | .timeoutFire => codexOnTimeout timeoutMs s
  | .close code => codexOnClose s code
  | .errEvt m =>
    let s := { s with timeoutArmed := false }
    let msg := "Failed to spawn Codex CLI: " ++ m
    settle (emit s (.error msg)) (.error msg)

/-- Run `CodexRunner.executeStream` against a trace of delivered events. -/
def codexStreamRun (timeoutMs : Nat) (events : List PEvent) : StreamState :=
  events.foldl (codexStep timeoutMs) initialStream

/-! ## Concrete inputs used by the theorems below -/

/-- A Codex JSONL transcript with two `item.completed`/`agent_message`
events followed by a legacy `result`-field line. -/
def c5Output : String :=
  "\x7b\"type\":\"item.completed\",\"item\":\x7b\"type\":\"agent_message\",\"text\":\"A\"\x7d\x7d\n\x7b\"type\":\"item.completed\",\"item\":\x7b\"type\":\"agent_message\",\"text\":\"B\"\x7d\x7d\n\x7b\"result\":\"C\"\x7d"

/-- A print-style terminal `result` event that reports a backend error. -/
def errResultLine : String :=
  "\x7b\"type\":\"result\",\"is_error\":true,\"result\":\"boom\",\"session_id\":\"s1\"\x7d"

/-- A successful print-style terminal response. -/
def claudeGoodJson : String :=
  "\x7b\"type\":\"result\",\"subtype\":\"success\",\"is_error\":false,\"result\":\"hello\",\"session_id\":\"new-sess\"\x7d"

def c2Runner : ClaudeCodeRunner := mkClaudeCodeRunner none none none none ""

/-- A process environment where any resume attempt exits 1 and a fresh run
succeeds. -/
def c2Oracle : List String → ExecOutcome := fun args =>
  if args.contains "--resume" then .closed (some 1) "" "stale session"
  else .closed (some 0) claudeGoodJson ""

def c2Opts : RunOptions := { sessionId := some "stale" }

def gemRunner : GeminiRunner := {}

/-- A successful Gemini JSON response. -/
def gemGoodJson : String :=
  "\x7b\"session_id\":\"g-sess\",\"response\":\"hi there\"\x7d"

/-- A Gemini process environment where any resume attempt exits 1 and a
fresh run succeeds. -/
def gemOracle : List String → ExecOutcome := fun args =>
  if args.contains "--resume" then .closed (some 1) "" "bad session"
  else .closed (some 0) gemGoodJson ""

def gemOpts : RunOptions := { sessionId := some "stale" }

/-- A Claude-Code process environment whose stdout is not JSON. -/
def c9Oracle : List String → ExecOutcome := fun _ =>
  .closed (some 0) "not json" ""

def c8Codex : CodexRunner :=
  mkCodexRunner (some "o3") none (some "/tmp") none ""

def c8Claude : ClaudeCodeRunner :=
  mkClaudeCodeRunner (some "opus") none none none ""

def c8Gem : GeminiRunner := { model := some "g2" }

def c8Opts : RunOptions := { sessionId := some "abc" }

/-! ## Helper lemmas -/

theorem pmLookup_pmErase_self (t : List (String × Nat)) (k : String) :
    pmLookup (pmErase t k) k = none := by
  induction t with
  | nil => rfl
  | cons hd tl ih =>
    obtain ⟨k', p⟩ := hd
    by_cases h : (k' == k) = true
    · simp [pmErase, h, ih]
    · simp [pmErase, pmLookup, h, ih]

theorem pmLookup_pmSet_self (t : List (String × Nat)) (k : String)
    (p : Nat) : pmLookup (pmSet t k p) k = some p := by
  induction t with
  | nil => simp [pmSet, pmLookup]
  | cons hd tl ih =>
    obtain ⟨k', p'⟩ := hd
    by_cases h : (k' == k) = true
    · simp [pmSet, h, pmLookup]
    · simp [pmSet, pmLookup, h, ih]

theorem lastD_of_lastOpt (l : List String) (d x : String)
    (h : lastOpt l = some x) : lastD l d = x := by
  induction l generalizing d with
  | nil => simp [lastOpt] at h
  | cons a t ih =>
    cases t with
    | nil =>
      simp [lastOpt] at h
      simp [lastD, h]
    | cons b t2 => exact ih d (by simpa [lastOpt] using h)

/-! ## The claims -/

/-- C1: registering a new process under a key first terminates and removes
the process already registered there (via `stop`), and afterwards
`isRunning` reflects only the new process. -/
theorem register_enforces_single_process (s : PMState) (k : String)
    (p1 p2 : Nat)
    (h1 : pmLookup s.table k = some p1)
    (h2 : s.killedSet.contains p1 = false)
    (h3 : s.killedSet.contains p2 = false)
    (h4 : p2 ≠ p1) :
    (pmStop s k).2 = true
    ∧ ((pmStop s k).1).killedSet.contains p1 = true
    ∧ pmLookup ((pmStop s k).1).table k = none
    ∧ pmLookup (pmRegister s k p2).table k = some p2
    ∧ (pmRegister s k p2).killedSet.contains p1 = true
    ∧ pmIsRunning (pmRegister s k p2) k = true := by
  have h2' : p1 ∉ s.killedSet := by simpa using h2
  have h3' : p2 ∉ s.killedSet := by simpa using h3
  have hstop : pmStop s k = (⟨pmErase s.table k, p1 :: s.killedSet⟩, true) := by
    simp [pmStop, h1, h2']
  have hreg : pmRegister s k p2 =
      ⟨pmSet (pmErase s.table k) k p2, p1 :: s.killedSet⟩ := by
    simp [pmRegister, hstop]
  refine ⟨by simp [hstop], by simp [hstop], ?_, ?_, ?_, ?_⟩
  · rw [hstop]
    exact pmLookup_pmErase_self s.table k
  · rw [hreg]
    exact pmLookup_pmSet_self (pmErase s.table k) k p2
  · simp [hreg]
  · rw [hreg]
    simp [pmIsRunning, pmLookup_pmSet_self, h3', h4]

/-- Witness for C1 at a concrete state: channel `chan` holds live process
1; registering process 2 kills 1 and leaves only 2 running. -/
theorem register_enforces_single_process_witness :
    pmLookup (PMState.mk [("chan", 1)] []).table "chan" = some 1
    ∧ ((pmStop (PMState.mk [("chan", 1)] []) "chan").2 = true
      ∧ ((pmStop (PMState.mk [("chan", 1)] []) "chan").1).killedSet.contains 1 = true
      ∧ pmLookup ((pmStop (PMState.mk [("chan", 1)] []) "chan").1).table "chan" = none
      ∧ pmLookup (pmRegister (PMState.mk [("chan", 1)] []) "chan" 2).table "chan" = some 2
      ∧ (pmRegister (PMState.mk [("chan", 1)] []) "chan" 2).killedSet.contains 1 = true
      ∧ pmIsRunning (pmRegister (PMState.mk [("chan", 1)] []) "chan" 2) "chan" = true) :=
  ⟨by decide,
    register_enforces_single_process (PMState.mk [("chan", 1)] []) "chan" 1 2
      (by decide) (by decide) (by decide) (by decide)⟩

/-- C2 counterexample: on the print-style (Claude-Code) backend a run that
supplied a session id and exits non-zero is NOT retried — it surfaces the
exit error even though the same environment would make a session-free
retry succeed. -/
theorem claude_run_never_retries_cex :
    claudeRun c2Runner c2Oracle "hi" c2Opts
      = .error "Claude Code CLI exited with code 1: stale session"
    ∧ claudeRun c2Runner c2Oracle "hi" { c2Opts with sessionId := none }
      = .ok ⟨"hello", "new-sess"⟩ :=
  ⟨(by rfl), (by rfl)⟩

/-- C2 (amended): the session-resume retry lives in the Gemini runner.  A
Gemini run that supplied a session id and whose first attempt fails with a
process-exit error is retried exactly once with the session id omitted,
and the retry's outcome is returned as the final result. -/
theorem gemini_resume_retry (r : GeminiRunner)
    (exec : List String → ExecOutcome) (p : String) (o : RunOptions)
    (e : String)
    (hsid : o.sessionId.isSome = true)
    (hfail : geminiAttempt r exec p o = .error e)
    (hmsg : strIncludes e "exited with code" = true) :
    geminiRun r exec p o = geminiAttempt r exec p { o with sessionId := none } := by
  unfold geminiRun
  rw [hfail]
  simp [hsid, hmsg]

/-- Witness for C2's amended theorem: a stale Gemini session exits 1, the
retry runs without the session id and its success is the final result. -/
theorem gemini_resume_retry_witness :
    geminiAttempt gemRunner gemOracle "hi" gemOpts
      = .error "Gemini CLI exited with code 1: bad session"
    ∧ geminiRun gemRunner gemOracle "hi" gemOpts
      = geminiAttempt gemRunner gemOracle "hi" { gemOpts with sessionId := none }
    ∧ geminiRun gemRunner gemOracle "hi" gemOpts = .ok ⟨"hi there", "g-sess"⟩ :=
  ⟨(by rfl),
    gemini_resume_retry gemRunner gemOracle "hi" gemOpts
      "Gemini CLI exited with code 1: bad session" (by rfl) (by rfl) (by rfl),
    (by rfl)⟩

/-- C3: the exactly-once callback contract fails on the code.  A
backend-reported error event mid-stream followed by a clean exit fires
`onError` and then `onComplete`; a timeout followed by the killed
process's `close` notification fires `onError` twice.  Only the promise
settlement is first-wins. -/
theorem stream_callbacks_double_fire :
    (claudeStreamRun DEFAULT_TIMEOUT_MS
        [.data (errResultLine ++ "\n"), .close (some 0)]).log
      = [.error "boom", .complete ⟨"", "s1"⟩]
    ∧ terminalCbCount (claudeStreamRun DEFAULT_TIMEOUT_MS
        [.data (errResultLine ++ "\n"), .close (some 0)]).log = 2
    ∧ (claudeStreamRun DEFAULT_TIMEOUT_MS
        [.data (errResultLine ++ "\n"), .close (some 0)]).settled
      = some (.error "boom")
    ∧ (codexStreamRun DEFAULT_TIMEOUT_MS [.timeoutFire, .close none]).log
      = [.error "Codex CLI timed out after 300000ms",
         .error "Codex CLI exited with code null"]
    ∧ terminalCbCount (codexStreamRun DEFAULT_TIMEOUT_MS
        [.timeoutFire, .close none]).log = 2 :=
  ⟨(by rfl), (by rfl), (by rfl), (by rfl), (by rfl)⟩

/-- C4: an exec-style request with `skipPermissions = false` yields argv
beginning `exec --json --full-auto --skip-git-repo-check` and ending with
the caller's prompt prefixed by the system-context preamble (the system
prompt is never empty in the program, see `buildSystemPrompt`). -/
theorem codex_scenario_a_args (r : CodexRunner) (p : String) (o : RunOptions)
    (hskip : o.skipPermissions.getD r.skipPermissions = false)
    (hsp : jsIsEmpty r.systemPrompt = false) :
    (codexBuildArgs r p o).take 4
      = ["exec", "--json", "--full-auto", "--skip-git-repo-check"]
    ∧ (codexBuildArgs r p o).getLast?
      = some ("<system-context>\n" ++ r.systemPrompt ++ "\n</system-context>\n\n" ++ p) := by
  constructor
  · unfold codexBuildArgs
    rw [hskip]
    rfl
  · unfold codexBuildArgs
    rw [List.getLast?_concat]
    unfold codexFullPrompt
    rw [hsp]
    simp

/-- Witness for C4 at a concrete runner and request. -/
theorem codex_scenario_a_args_witness :
    ((RunOptions.mk (some false) none none).skipPermissions.getD
      (mkCodexRunner none none none none "").skipPermissions = false)
    ∧ (jsIsEmpty (mkCodexRunner none none none none "").systemPrompt = false)
    ∧ ((codexBuildArgs (mkCodexRunner none none none none "") "hi"
        (RunOptions.mk (some false) none none)).take 4
      = ["exec", "--json", "--full-auto", "--skip-git-repo-check"]
    ∧ (codexBuildArgs (mkCodexRunner none none none none "") "hi"
        (RunOptions.mk (some false) none none)).getLast?
      = some ("<system-context>\n"
          ++ (mkCodexRunner none none none none "").systemPrompt
          ++ "\n</system-context>\n\n" ++ "hi")) :=
  ⟨(by rfl), (by rfl),
    codex_scenario_a_args (mkCodexRunner none none none none "") "hi"
      (RunOptions.mk (some false) none none) (by rfl) (by rfl)⟩

/-- C5 counterexample: an output holding two agent-message completions
`A`, `B` followed by a legacy `result`-field line yields `C`, not the text
of the last agent-message event. -/
theorem codex_last_agent_message_cex :
    codexAgentMessageTexts c5Output = ["A", "B"]
    ∧ codexExtractResult c5Output = "C"
    ∧ "C" ≠ "B" :=
  ⟨(by rfl), (by rfl), by decide⟩

/-- C5 (amended): the final text of `extractResult` equals the text of the
last text-yielding line alone (agent-message completion, legacy `message`
event, or `result`-field fallback) — each extraction replaces, never
concatenates with, the earlier ones. -/
theorem codex_result_is_last_text_part (output t : String)
    (h : lastOpt (codexTextParts output) = some t) :
    codexExtractResult output = t := by
  unfold codexExtractResult
  exact lastD_of_lastOpt (codexTextParts output) output t h

/-- Witness for C5's amended theorem: on `c5Output` the last text-yielding
line is the `result`-field line, and the final text is exactly its text. -/
theorem codex_result_is_last_text_part_witness :
    lastOpt (codexTextParts c5Output) = some "C"
    ∧ codexExtractResult c5Output = "C" :=
  ⟨(by rfl), codex_result_is_last_text_part c5Output "C" (by rfl)⟩

/-- C6: the additive-merge rule — empty accumulated text adopts the result
text outright; non-empty accumulated text not already a prefix of the
result text is preserved, with the result text appended. -/
theorem merge_texts_additive (t r : String) :
    mergeTexts "" r = r
    ∧ (jsIsEmpty t = false → jsStartsWith r t = false → mergeTexts t r = t ++ r) := by
  constructor
  · rfl
  · intro h1 h2
    simp [mergeTexts, h1, h2]

/-- Witness for C6 at concrete strings. -/
theorem merge_texts_additive_witness :
    mergeTexts "" "r" = "r"
    ∧ (jsIsEmpty "ab" = false ∧ jsStartsWith "cd" "ab" = false
      ∧ mergeTexts "ab" "cd" = "abcd") :=
  ⟨(merge_texts_additive "ab" "r").1,
    (by rfl), (by rfl), (merge_texts_additive "ab" "cd").2 (by rfl) (by rfl)⟩

/-- C7: the stream decoder reassembles lines across chunk boundaries — fed
the two chunks it emits exactly the two decoded objects in order — and a
retained final fragment with no trailing newline that parses as a complete
JSON object is still processed at the exit-time flush. -/
theorem stream_decoder_reassembles_lines :
    codexEmittedObjects ["\x7b\"a\":1\x7d\n\x7b\"b\":", "2\x7d\n"]
      = [Json.obj [("a", Json.num "1")], Json.obj [("b", Json.num "2")]]
    ∧ codexFlushObject ["\x7b\"a\":1\x7d\n\x7b\"b\":", "2\x7d\n"] = none
    ∧ codexProcessedObjects ["\x7b\"a\":1\x7d\n", "\x7b\"b\":2\x7d"]
      = [Json.obj [("a", Json.num "1")], Json.obj [("b", Json.num "2")]]
    ∧ codexFlushObject ["\x7b\"a\":1\x7d\n", "\x7b\"b\":2\x7d"]
      = some (Json.obj [("b", Json.num "2")]) :=
  ⟨(by rfl), (by rfl), (by rfl), (by rfl)⟩

/-- C8 counterexample: on the print-style backend with a configured model,
`--resume` is placed BEFORE `--model`, not after all model-style flags as
the claim states. -/
theorem claude_resume_before_model_cex :
    (claudeRunArgs c8Claude "hi" c8Opts).take 7
      = ["-p", "--output-format", "json", "--resume", "abc", "--model", "opus"]
    ∧ (claudeRunArgs c8Claude "hi" c8Opts).indexOf "--resume" = 3
    ∧ (claudeRunArgs c8Claude "hi" c8Opts).indexOf "--model" = 5
    ∧ (3 : Nat) < 5 :=
  ⟨(by rfl), by decide, by decide, by decide⟩

/-- C8 (amended): every backend places the resume token with the session
id immediately after it; the exec-style and Gemini backends place the pair
after the `--model`/`--cd` flags, while the print-style backend places it
before its `--model` flag. -/
theorem resume_token_placement (rc : CodexRunner) (rcl : ClaudeCodeRunner)
    (rg : GeminiRunner) (p : String) (o : RunOptions) (sid : String)
    (h : o.sessionId = some sid) :
    codexBuildArgs rc p o =
      ["exec", "--json"]
      ++ (if o.skipPermissions.getD rc.skipPermissions then
            ["--dangerously-bypass-approvals-and-sandbox"]
          else ["--full-auto"])
      ++ ["--skip-git-repo-check"]
      ++ (match rc.model with
          | some m => ["--model", m]
          | none => [])
      ++ (match rc.workdir with
          | some w => ["--cd", w]
          | none => [])
      ++ ["resume", sid, codexFullPrompt rc p]
    ∧ claudeRunArgs rcl p o =
      ["-p", "--output-format", "json"]
      ++ (if o.skipPermissions.getD rcl.skipPermissions then
            ["--dangerously-skip-permissions"]
          else [])
      ++ ["--resume", sid]
      ++ (match rcl.model with
          | some m => ["--model", m]
          | none => [])
      ++ ["--append-system-prompt", rcl.systemPrompt, p]
    ∧ geminiRunArgs rg p o =
      (if o.skipPermissions.getD rg.skipPermissions then ["--yolo"] else [])
      ++ (match rg.model with
          | some m => ["--model", m]
          | none => [])
      ++ ["--resume", sid, "--prompt", p, "--output-format", "json"] := by
  refine ⟨?_, ?_, ?_⟩ <;>
    simp [codexBuildArgs, claudeRunArgs, geminiRunArgs, geminiBuildBaseArgs, h]

/-- Witness for C8's amended theorem at concrete runners with model and
workdir configured. -/
theorem resume_token_placement_witness :
    codexBuildArgs c8Codex "hi" c8Opts
      = ["exec", "--json", "--full-auto", "--skip-git-repo-check",
         "--model", "o3", "--cd", "/tmp", "resume", "abc",
         codexFullPrompt c8Codex "hi"]
    ∧ claudeRunArgs c8Claude "hi" c8Opts
      = ["-p", "--output-format", "json", "--resume", "abc",
         "--model", "opus", "--append-system-prompt",
         c8Claude.systemPrompt, "hi"]
    ∧ geminiRunArgs c8Gem "hi" c8Opts
      = ["--model", "g2", "--resume", "abc", "--prompt", "hi",
         "--output-format", "json"] := by
  have h := resume_token_placement c8Codex c8Claude c8Gem "hi" c8Opts "abc" (by rfl)
  exact ⟨h.1.trans (by rfl), h.2.1.trans (by rfl), h.2.2.trans (by rfl)⟩

/-- C9 counterexample: on the print-style backend a non-streaming run
whose entire stdout is unparsable FAILS with a parse error instead of
returning the raw output verbatim. -/
theorem claude_unparsable_fails_cex :
    claudeRun c2Runner c9Oracle "hi" (RunOptions.mk none none none)
      = .error "Failed to parse Claude Code CLI response: not json" :=
  (by rfl)

/-- C9 (amended): only the exec-style backend degrades gracefully — when
no line of the output yields a text extraction the raw output is returned
verbatim; the print-style backend turns an unparsable output into a run
failure. -/
theorem unparsable_output_fallback (output1 output2 : String)
    (h1 : codexTextParts output1 = [])
    (h2 : jsonParse (jsTrim output2) = none) :
    codexExtractResult output1 = output1
    ∧ claudeParseResponse output2
      = .error ("Failed to parse Claude Code CLI response: " ++ output2) := by
  constructor
  · unfold codexExtractResult
    rw [h1]
    rfl
  · unfold claudeParseResponse
    rw [h2]

/-- Witness for C9's amended theorem at concrete unparsable outputs. -/
theorem unparsable_output_fallback_witness :
    codexTextParts "oops raw" = []
    ∧ jsonParse (jsTrim "not json") = none
    ∧ (codexExtractResult "oops raw" = "oops raw"
      ∧ claudeParseResponse "not json"
        = .error ("Failed to parse Claude Code CLI response: " ++ "not json")) :=
  ⟨(by rfl), (by rfl), unparsable_output_fallback "oops raw" "not json" (by rfl) (by rfl)⟩

/-- C10: when the terminal result event arrives in the final buffered
fragment without a trailing newline, the exit-time flush does not consult
`is_error`: with exit code 0 the run resolves successfully through
`onComplete` with the merged text, despite the event reporting an error. -/
theorem claude_flush_ignores_error_flag :
    (jsonParse errResultLine).map (fun j => fieldTruthy j "is_error")
      = some true
    ∧ (claudeStreamRun DEFAULT_TIMEOUT_MS
        [.data errResultLine, .close (some 0)]).settled
      = some (.ok ⟨"boom", "s1"⟩)
    ∧ (claudeStreamRun DEFAULT_TIMEOUT_MS
        [.data errResultLine, .close (some 0)]).log
      = [.complete ⟨"boom", "s1"⟩] :=
  ⟨(by rfl), (by rfl), (by rfl)⟩

end Xangi
